import Mathlib

/-!
Shallow embedding of the kat-auditagent orchestration core
(`adk/llm/mcp_router.py`, `adk/services/audit_pipeline.py`,
`adk/services/gap_analysis.py`, `adk/services/audit_utils.py`,
`adk/orchestrator.py`, `adk/http/router.py`) together with proofs of
the specified properties.  Python dicts carrying fixed keys are
modelled as structures, scores as exact rationals, fallible calls as
`Except`, and the job scheduler as an explicit transition system.
-/

namespace KatAudit

/-! ## Python string primitives

Character-level models of the Python string methods the code uses
(`lower`, `upper`, `strip`, `split`, the single-character `replace`),
defined by structural recursion over the character list so that closed
instances evaluate. The inputs in play are ASCII, so the ASCII case
tables of `lower`/`upper` are the relevant ones. -/

/-- ASCII `str.lower()` on one character. -/
def pyLowerChar (c : Char) : Char :=
  if 65 ≤ c.toNat ∧ c.toNat ≤ 90 then Char.ofNat (c.toNat + 32) else c

/-- ASCII `str.upper()` on one character. -/
def pyUpperChar (c : Char) : Char :=
  if 97 ≤ c.toNat ∧ c.toNat ≤ 122 then Char.ofNat (c.toNat - 32) else c

/-- `str.lower()`. -/
def pyLower (s : String) : String :=
  (s.data.map pyLowerChar).asString

/-- `str.upper()`. -/
def pyUpper (s : String) : String :=
  (s.data.map pyUpperChar).asString

/-- The whitespace class `str.strip()` / `str.split()` use. -/
def isPySpaceChar (c : Char) : Bool :=
  c.toNat = 32 || c.toNat = 9 || c.toNat = 10
    || c.toNat = 13 || c.toNat = 11 || c.toNat = 12

/-- `str.strip()`. -/
def pyStrip (s : String) : String :=
  (((s.data.dropWhile isPySpaceChar).reverse.dropWhile
      isPySpaceChar).reverse).asString

/-- Maximal runs of characters satisfying `keep` (the accumulator holds
the current run, reversed). -/
def runsAux (keep : Char → Bool) (acc : List Char) :
    List Char → List (List Char)
  | [] => if acc = [] then [] else [acc.reverse]
  | c :: rest =>
      if keep c then runsAux keep (c :: acc) rest
      else if acc = [] then runsAux keep [] rest
      else acc.reverse :: runsAux keep [] rest

/-- `str.split()` with no argument: whitespace runs are separators and
empty fragments are dropped. -/
def pySplitWs (s : String) : List String :=
  (runsAux (fun c => !isPySpaceChar c) [] s.data).map List.asString

/-- `s.replace("\n", " ")` (single-character needle and replacement). -/
def replaceNlSpace (s : String) : String :=
  (s.data.map fun c => if c = '\n' then ' ' else c).asString

/-! ## `adk/services/audit_utils.py` -/

/-- Embedding of `clamp_top_k(k, lo=3, hi=30)`:
`max(lo, min(int(k), hi))` (the `except` branch is unreachable for an
integer argument). -/
def clamp_top_k (k : Int) (lo : Int := 3) (hi : Int := 30) : Int :=
  max lo (min k hi)

/-- Embedding of `framework_for_policy_type`: lookup in the fixed map,
falling back to upper-cased input (or "GDPR" for empty input).  The
Python `.strip().lower()` preprocessing is modelled by requiring the
caller to pass the already-normalised policy type, as the pipeline
does (`ptype` is lower-cased at the classify stage). -/
def framework_for_policy_type (pt : String) : String :=
  if pt = "hr" then "GDPR"
  else if pt = "posh" then "GDPR"
  else if pt = "gdpr" then "GDPR"
  else if pt = "dpdp" then "DPDP"
  else if pt = "hipaa" then "HIPAA"
  else if pt = "" then "GDPR"
  else pyUpper pt

/-- Python `d.get(key) or alt`: the alternative is used both when the
key is absent and when its value is falsy (empty string). -/
def pyGetOr (o : Option String) (alt : String) : String :=
  match o with
  | some s => if s = "" then alt else s
  | none => alt

/-- A checklist item: a Python dict with optional `question` / `title` /
`text` keys plus the `rationale` field `generate_checklist_from_docs`
adds (other keys do not influence the modelled code). -/
structure ChecklistItem where
  question : Option String := none
  title : Option String := none
  text : Option String := none
  rationale : Option String := none
  deriving Repr, DecidableEq

/-- Embedding of `normalize_question(item)`:
`item.get("question") or item.get("title") or item.get("text") or ""`.
Python `or` skips falsy values, i.e. both missing keys and empty
strings. -/
def normalize_question (it : ChecklistItem) : String :=
  pyGetOr it.question (pyGetOr it.title (pyGetOr it.text ""))

/-- One retrieved clause record as carried in a scored item's `clauses`
list (only the keys the corrected-draft stage reads). -/
structure ClauseRec where
  source : Option String := none
  title : Option String := none
  id : Option String := none
  text : Option String := none
  content : Option String := none
  deriving Repr, DecidableEq

/-! ## `adk/services/gap_analysis.py` — `analyze_gaps` -/

/-- One scored item as consumed by `analyze_gaps`: a dict with an
optional integer `score` (default 0 when absent), plus the `question`
and `user_answer` strings it copies into the gap record. -/
structure ScoredItem where
  score : Option Int := none
  question : String := ""
  user_answer : String := ""
  clauses : List ClauseRec := []
  deriving Repr, DecidableEq

/-- `int(it.get("score", 0))` for a well-typed scored item. -/
def itemScore (it : ScoredItem) : Int :=
  it.score.getD 0

/-- The fixed remediation text `analyze_gaps` attaches to every gap. -/
def gapSuggestion : String :=
  "Strengthen controls for this checklist item. Document specific procedures, add monitoring, and align with the cited regulation clauses."

/-- One record appended to the gap list by `analyze_gaps`. -/
structure GapRecord where
  question : String
  current_answer : String
  score : Int
  suggestion : String
  keywords : List String
  deriving Repr, DecidableEq

/-- The record `analyze_gaps` builds for an under-threshold item
(`keywords` is `question.split()[:5]`). -/
def mkGapRecord (it : ScoredItem) : GapRecord :=
  { question := it.question
    current_answer := it.user_answer
    score := itemScore it
    suggestion := gapSuggestion
    keywords := (pySplitWs it.question).take 5 }

/-- The loop body of `analyze_gaps`: skip items with
`score >= min_score`, append a gap record otherwise. -/
def analyzeGapsItems (scored_items : List ScoredItem) (min_score : Int) :
    List GapRecord :=
  match scored_items with
  | [] => []
  | it :: rest =>
      if itemScore it ≥ min_score then analyzeGapsItems rest min_score
      else mkGapRecord it :: analyzeGapsItems rest min_score

/-- Result dict of `analyze_gaps`: `{"count": len(gaps), "items": gaps}`. -/
structure GapsOut where
  count : Nat
  items : List GapRecord
  deriving Repr, DecidableEq

/-- Embedding of `analyze_gaps(scored_items, min_score=4)`. -/
def analyze_gaps (scored_items : List ScoredItem) (min_score : Int := 4) :
    GapsOut :=
  let gaps := analyzeGapsItems scored_items min_score
  { count := gaps.length, items := gaps }

/-- `Orchestrator.compute_gaps` merely forwards to `analyze_gaps`. -/
def compute_gaps (scored_items : List ScoredItem) (min_score : Int := 4) :
    GapsOut :=
  analyze_gaps scored_items min_score

/-! ## `adk/orchestrator.py` — `score_batch` -/

/-- One item of a batch-scoring request (`{"question": q, "user_answer": a}`). -/
structure QAItem where
  question : String
  user_answer : String
  deriving Repr, DecidableEq

/-- What one `score_question` call contributes (the scorer returns an
integer score plus rationale/clauses; scores are exact integers, so
the `float()` accumulation never fails). -/
structure ScoreQOut where
  score : Int
  rationale : String := ""
  clauses : List ClauseRec := []
  llm_provider : String := ""
  llm_model : String := ""
  deriving Repr, DecidableEq

/-- The per-item result record `score_batch` appends. -/
structure BatchScored where
  question : String
  user_answer : String
  score : Int
  rationale : String
  clauses : List ClauseRec
  llm_provider : String
  llm_model : String
  deriving Repr, DecidableEq

/-- Result of `score_batch`: `{"items": results, "composite_score": composite}`. -/
structure ScoreBatchOut where
  items : List BatchScored
  composite_score : ℚ
  deriving Repr, DecidableEq

/-- The loop of `score_batch`: score every item, accumulate
`total += float(score)` and `count += 1`. -/
def scoreBatchLoop (scoreQ : String → String → ScoreQOut) :
    List QAItem → List BatchScored × ℚ × Nat
  | [] => ([], 0, 0)
  | it :: rest =>
      let r := scoreQ it.question it.user_answer
      let rec_ : BatchScored :=
        { question := it.question
          user_answer := it.user_answer
          score := r.score
          rationale := r.rationale
          clauses := r.clauses
          llm_provider := r.llm_provider
          llm_model := r.llm_model }
      let (rs, t, c) := scoreBatchLoop scoreQ rest
      (rec_ :: rs, (r.score : ℚ) + t, c + 1)

/-- Embedding of `Orchestrator.score_batch`:
`composite = total / count if count else 0.0`. -/
def score_batch (scoreQ : String → String → ScoreQOut) (items : List QAItem) :
    ScoreBatchOut :=
  let (results, total, count) := scoreBatchLoop scoreQ items
  { items := results
    composite_score := if count = 0 then 0 else total / (count : ℚ) }

/-! ## `adk/llm/mcp_router.py` — `LLMRouter` -/

/-- The `LLMResponse` dataclass. -/
structure LLMResponse where
  text : String
  provider : String
  model : String
  deriving Repr, DecidableEq

/-- Environment the router reads: the `LLM_MOCK` flag, `settings.prefer`,
which API keys are present in the process environment, and oracles for
the provider backends.  `backends p` is what the non-streaming helper
(`_gemini` / `_openai` / `_groq`) returns: `none` when the SDK or key is
missing or the call errors, otherwise the provider response (possibly
with empty text).  `nativeStream p` is the outcome of the
provider-native SSE attempt in `generate_stream`: `none` when the HTTP
call raises or returns non-200 (fall through to the next provider),
`some frames` the decoded delta fragments of a 200 response, in arrival
order. -/
structure LLMEnv where
  mock : Bool
  prefer : String
  openaiKey : Bool
  groqKey : Bool
  googleKey : Bool
  geminiKey : Bool
  backends : String → Option LLMResponse
  nativeStream : String → Option (List String)

/-- Python `a or b` on strings: empty string is falsy. -/
def orElseStr (a b : String) : String :=
  if a = "" then b else a

/-- `(prefer or self.prefer or "auto").lower()`. -/
def effPrefer (env : LLMEnv) (pref : Option String) : String :=
  pyLower (orElseStr (pref.getD "") (orElseStr env.prefer "auto"))

/-- `order = ["gemini","openai","groq"]; if eff in order: order.remove(eff);
order.insert(0, eff)`. -/
def providerOrder (eff : String) : List String :=
  let base := ["gemini", "openai", "groq"]
  if eff ∈ base then eff :: base.erase eff else base

/-- The provider loop of `generate`: try each provider in order, return
the first response with non-empty text (`if r and r.text: return r`).
Also records which backends were actually contacted. -/
def tryProviders (env : LLMEnv) : List String → List String × Option LLMResponse
  | [] => ([], none)
  | p :: rest =>
      match env.backends p with
      | some r =>
          if r.text ≠ "" then ([p], some r)
          else
            let (ps, res) := tryProviders env rest
            (p :: ps, res)
      | none =>
          let (ps, res) := tryProviders env rest
          (p :: ps, res)

/-- Embedding of `LLMRouter.generate`.  Returns the list of backends
contacted together with the response (`none` = all providers failed).
In mock mode no backend is consulted and the canned response
`MOCK: <prompt>` is returned. -/
def generate (env : LLMEnv) (prompt : String) (pref : Option String)
    (_temperature : ℚ) : List String × Option LLMResponse :=
  if env.mock then
    ([], some ⟨"MOCK: " ++ prompt, "mock", "mock"⟩)
  else
    tryProviders env (providerOrder (effPrefer env pref))

/-- `res.text if res else ""` after a non-streaming `generate` call. -/
def generateText (env : LLMEnv) (prompt : String) (pref : Option String)
    (temperature : ℚ) : String :=
  match (generate env prompt pref temperature).2 with
  | some r => r.text
  | none => ""

/-- The slicing loop `for i in range(0, len(msg), chunk_size):
yield msg[i : i + chunk_size]` (character indexing, as in Python). -/
def chunkFragsL (cs : List Char) (n : Nat) : List (List Char) :=
  (List.range' 0 ((cs.length + n - 1) / n) n).map fun i => (cs.drop i).take n

/-- String-level wrapper of `chunkFragsL`. -/
def chunkFrags (s : String) (n : Nat) : List String :=
  (chunkFragsL s.data n).map List.asString

/-- The canned mock text `f"MOCK: {prompt}"`. -/
def mockText (prompt : String) : String :=
  "MOCK: " ++ prompt

/-- The hard-coded guidance message `generate_stream` chunks out when no
provider API key is configured. -/
def guidanceText : String :=
  "I'm a compliance and audit assistant. I can help you understand regulatory frameworks like GDPR, HIPAA, and DPDP. I can assist with policy analysis, gap identification, and compliance requirements. However, I need API keys configured to provide detailed responses. Please configure LLM provider credentials or enable mock mode for testing."

/-- The provider loop of `generate_stream`: OpenAI and Groq are tried
with provider-native SSE when their key is present (a failed attempt
falls through to the next provider; a 200 response that yielded nothing
falls back to one non-streaming `generate`, yielding its full text once
when non-empty); the Gemini branch is an explicit `continue`.  After
the loop, one non-streaming `generate` is chunked. -/
def streamTry (env : LLMEnv) (prompt : String) (chunk_size : Nat)
    (pref : Option String) (temperature : ℚ) : List String → List String
  | [] => chunkFrags (generateText env prompt pref temperature) chunk_size
  | p :: rest =>
      if p = "openai" then
        if env.openaiKey then
          match env.nativeStream "openai" with
          | some frames =>
              if frames ≠ [] then frames
              else
                let t := generateText env prompt pref temperature
                if t = "" then [] else [t]
          | none => streamTry env prompt chunk_size pref temperature rest
        else streamTry env prompt chunk_size pref temperature rest
      else if p = "groq" then
        if env.groqKey then
          match env.nativeStream "groq" with
          | some frames =>
              if frames ≠ [] then frames
              else
                let t := generateText env prompt pref temperature
                if t = "" then [] else [t]
          | none => streamTry env prompt chunk_size pref temperature rest
        else streamTry env prompt chunk_size pref temperature rest
      else streamTry env prompt chunk_size pref temperature rest

/-- Embedding of `LLMRouter.generate_stream` as the finite list of
yielded fragments: mock mode chunks the canned text; with no API key at
all the hard-coded guidance message is chunked; otherwise the provider
loop runs with the final non-streaming fallback. -/
def generate_stream (env : LLMEnv) (prompt : String) (chunk_size : Nat)
    (pref : Option String) (temperature : ℚ) : List String :=
  if env.mock then
    chunkFrags (mockText prompt) chunk_size
  else if ¬(env.openaiKey || env.groqKey || env.googleKey || env.geminiKey) then
    chunkFrags guidanceText chunk_size
  else
    streamTry env prompt chunk_size pref temperature
      (providerOrder (effPrefer env pref))

/-! ## Shared Python-level helpers for the pipeline -/

/-- A Python exception, as far as the modelled control flow inspects it:
its message and whether it is a `TypeError` (the only exception class
the pipeline's score stage distinguishes). -/
structure PyExc where
  msg : String := ""
  isTypeError : Bool := false
  deriving Repr, DecidableEq

/-- `os.path.basename` of a POSIX-style path: the part after the last
`/`. -/
def baseName (p : String) : String :=
  ((p.data.reverse.takeWhile fun c => c != '/').reverse).asString

/-- Python `needle in hay` on strings: substring containment. -/
def containsSub (hay needle : String) : Bool :=
  (List.range (hay.data.length + 1)).any fun i =>
    needle.data.isPrefixOf (hay.data.drop i)

/-- `(s or "").strip().lower()` applied to an optional string. -/
def pyStripLower (s : Option String) : String :=
  pyLower (pyStrip (s.getD ""))

/-- The classify stage of both pipeline entry points: the explicit
policy type when non-empty, else filename heuristics (`"posh" in name`,
`"hr" in name`), default `"general"`. -/
def classifyPolicyType (policy_type : Option String) (file_path : String) :
    String :=
  let ptype := pyStripLower policy_type
  if ptype ≠ "" then ptype
  else
    let name := pyLower (baseName file_path)
    if containsSub name "posh" then "posh"
    else if containsSub name "hr" then "hr"
    else "general"

/-- Embedding of `stable_session_id(org_id, file_path)`. -/
def stable_session_id (org_id file_path : String) : String :=
  "audit:" ++ org_id ++ ":" ++ baseName file_path

/-- Python `bool(x)` for an optional string (`None` and `""` are falsy). -/
def pyTruthy (o : Option String) : Bool :=
  match o with
  | some s => s ≠ ""
  | none => false

/-! ## `adk/services/gap_analysis.py` — `generate_checklist_from_docs` -/

/-- A character matched by the regex class `[a-z0-9]`. -/
def isAlnumLower (c : Char) : Bool :=
  (97 ≤ c.toNat && c.toNat ≤ 122) || (48 ≤ c.toNat && c.toNat ≤ 57)

/-- `re.findall(r"[a-z0-9]+", s)`: maximal runs of lower-case
alphanumeric characters. -/
def alnumTokens (s : String) : List String :=
  (runsAux isAlnumLower [] s.data).map List.asString

/-- Embedding of `_score_keywords(text, query)`.  The score is a sum of
`1.0` per matched token and a `2.0` phrase bonus, hence integral; it is
modelled as a `Nat`. -/
def score_keywords (text query : String) : Nat :=
  if text = "" || query = "" then 0
  else
    let t := pyLower text
    let q := pyLower query
    ((alnumTokens q).filter fun term => term ≠ "" && containsSub t term).length
      + (if containsSub t q then 2 else 0)

/-- Stable insertion of an element into a list sorted by strictly
descending key, placing it after earlier elements with an equal key:
together with `sortByKeyDesc` this models Python's stable
`list.sort(key=..., reverse=True)`. -/
def insertDesc {α : Type} (key : α → Nat) (x : α) : List α → List α
  | [] => [x]
  | y :: ys =>
      if key y > key x then y :: insertDesc key x ys else x :: y :: ys

/-- Stable sort by descending key (insertion sort; extensionally the
stable sort Python performs). -/
def sortByKeyDesc {α : Type} (key : α → Nat) : List α → List α
  | [] => []
  | x :: xs => insertDesc key x (sortByKeyDesc key xs)

/-- What `yaml.safe_load` returns for a checklist file:
a dict with optional `framework` / `version` keys and an `items` list. -/
structure ChecklistData where
  framework : Option String := none
  version : Option String := none
  items : List ChecklistItem := []
  deriving Repr, DecidableEq

/-- Result dict of `generate_checklist_from_docs`. -/
structure GenChecklistOut where
  framework : String
  version : String
  items : List ChecklistItem
  deriving Repr, DecidableEq

/-- Environment of `generate_checklist_from_docs`:
`loadChecklist` is `checklists.load_checklist` (raises
`FileNotFoundError` when the framework's YAML is absent); `fsText p` is
what `_extract_text` obtains for path `p` — `none` when the path does
not exist (the path is skipped), otherwise the extracted text, `""`
included when extraction fails. -/
structure ChecklistEnv where
  loadChecklist : String → Except PyExc ChecklistData
  fsText : String → Option String

/-- `f"selected_by_doc_relevance:{s:.1f}"` for the integral score. -/
def relevanceRationale (s : Nat) : String :=
  "selected_by_doc_relevance:" ++ toString s ++ ".0"

/-- Embedding of `generate_checklist_from_docs(framework, files, top_n)`:
load the framework checklist, extract and concatenate the documents'
text, score every item's `question or title` against it, stable-sort by
descending score and keep the `top_n` best with a relevance rationale. -/
def generate_checklist_from_docs (cenv : ChecklistEnv) (framework : String)
    (files : List String) (top_n : Int) : Except PyExc GenChecklistOut :=
  match cenv.loadChecklist framework with
  | .error e => .error e
  | .ok data =>
      let text := String.intercalate "\n" (files.filterMap cenv.fsText)
      let scored := data.items.map fun it =>
        (it, score_keywords text (pyGetOr it.question (pyGetOr it.title "")))
      let sorted := sortByKeyDesc (fun p => p.2) scored
      let selected := (sorted.take top_n.toNat).map fun p =>
        { p.1 with rationale := some (relevanceRationale p.2) }
      .ok
        { framework := data.framework.getD framework
          version := data.version.getD "1.0"
          items := selected }

/-! ## `adk/services/audit_pipeline.py` — `PolicyAuditPipeline` -/

/-- `score_batch`'s keyword arguments other than `prefer`
(`user_id` is always `"system"` in the pipeline). -/
structure ScoreBatchArgs where
  session_id : String
  org_id : String
  user_id : String
  framework : String
  items : List QAItem
  k : Int
  deriving Repr, DecidableEq

/-- The orchestrator interface the pipeline calls (injected via the
constructor, so any implementation — the real `Orchestrator` or a test
double — can stand here; each method may raise). `score_batch` is the
call carrying `prefer=...`; `score_batch_noprefer` is the retry issued
when that call raises `TypeError`. -/
structure OrchOps where
  index_documents : List String → Except PyExc Unit
  generate_checklist : String → List String → Int → Except PyExc GenChecklistOut
  score_batch : ScoreBatchArgs → Option String → Except PyExc ScoreBatchOut
  score_batch_noprefer : ScoreBatchArgs → Except PyExc ScoreBatchOut
  compute_gaps : List BatchScored → Int → Except PyExc GapsOut
  annotate_policy : String → List GapRecord → String → Except PyExc String

/-- Arguments handed to `write_audit_pdf`. -/
structure ReportArgs where
  policy_file_path : String
  policy_type : String
  composite : ℚ
  checklist : List ChecklistItem
  scores : List BatchScored
  gaps : List GapRecord
  corrected_draft : Option String

/-- `write_audit_pdf`'s result dict (both keys may be absent). -/
structure ReportOut where
  report_path : Option String := none
  download_url : Option String := none
  deriving Repr, DecidableEq

/-- Everything the pipeline touches outside the orchestrator interface:
the LLM used for the corrected draft, the report writer, the filesystem
(existence checks, `resolve()`, `relative_to(settings.root)`, the
computed annotation output path) and the corpus directory scan results
(the `rglob` candidate list, in code order). -/
structure PipelineEnv where
  ops : OrchOps
  llmGenerate : String → Option String → Except PyExc (Option LLMResponse)
  writeAuditPdf : ReportArgs → Except PyExc ReportOut
  pathExists : String → Bool
  relToRoot : String → Option String
  annotatedOutPath : String → String
  corpusCandidates : List String
  resolvePath : String → String

/-- The de-duplication loop of the discover-corpus stage: keep the
first occurrence of each resolved path. -/
def dedupeKeepFirst (seen : List String) : List String → List String
  | [] => []
  | p :: rest =>
      if p ∈ seen then dedupeKeepFirst seen rest
      else p :: dedupeKeepFirst (p :: seen) rest

/-- The discover-corpus stage: resolve each candidate, de-duplicate
preserving order, cap at 50. -/
def discoverCorpus (env : PipelineEnv) : List String :=
  (dedupeKeepFirst [] (env.corpusCandidates.map env.resolvePath)).take 50

/-- The score stage's exception discipline: forward the `prefer` call's
result, but on a `TypeError` retry once without `prefer`; any other
exception (and any exception of the retry) propagates. -/
def effScoreBatch (ops : OrchOps) (args : ScoreBatchArgs)
    (prefer : Option String) : Except PyExc ScoreBatchOut :=
  match ops.score_batch args prefer with
  | .ok out => .ok out
  | .error e => if e.isTypeError then ops.score_batch_noprefer args else .error e

/-- The annotate stage (`try`/`except` around `annotate_policy` plus the
existence check and `relative_to` fallback). Returns
`(annotated_path, annotated_url)`. -/
def annotateStage (env : PipelineEnv) (file_path : String)
    (gaps : List GapRecord) : Option String × Option String :=
  match env.ops.annotate_policy file_path gaps (env.annotatedOutPath file_path) with
  | .error _ => (none, none)
  | .ok annotated_path =>
      if env.pathExists annotated_path then
        (some ((env.relToRoot annotated_path).getD annotated_path),
          some ("/reports/" ++ baseName annotated_path))
      else (none, none)

/-- `f"- {src}: {excerpt}"` for the first clause of a scored item:
source/title/id fallback chain and the 220-character excerpt with an
ellipsis. -/
def citeOfClause (c : ClauseRec) : String :=
  let src := pyGetOr c.source (pyGetOr c.title (pyGetOr c.id "clause"))
  let excerpt0 := replaceNlSpace (pyStrip (pyGetOr c.text (pyGetOr c.content "")))
  let excerpt :=
    if excerpt0 = "" then excerpt0
    else (excerpt0.data.take 220).asString ++
      (if excerpt0.length > 220 then "…" else "")
  "- " ++ src ++ ": " ++ excerpt

/-- The citations loop of the corrected-draft stage: first clause of
each scored item that has one, at most 8 citations. -/
def draftCitations (acc : List String) : List BatchScored → List String
  | [] => acc.reverse
  | it :: rest =>
      match it.clauses with
      | [] => draftCitations acc rest
      | c0 :: _ =>
          let acc' := citeOfClause c0 :: acc
          if acc'.length ≥ 8 then acc'.reverse else draftCitations acc' rest

/-- The remediation prompt built by the corrected-draft stage. -/
def draftPrompt (gaps : List GapRecord) (scores : List BatchScored) : String :=
  let gap_bullets := String.intercalate "\n"
    ((gaps.take 8).map fun g => "- " ++ g.question ++ ": " ++ g.suggestion)
  let citations_block := String.intercalate "\n" (draftCitations [] scores)
  "You are a compliance policy editor. Based on the following gaps, draft succinct corrected policy paragraphs "
    ++ "(2-4 sentences each) suitable to insert into the organization's policy. Use clear, neutral tone. "
    ++ "Return one section per bullet, prefixed with 'Section:' and keep total under 800 words. "
    ++ "When appropriate, reference the provided citations inline in square brackets (e.g., [GDPR Art. 5]).\n\n"
    ++ "GAPS:\n" ++ gap_bullets ++ "\n\n"
    ++ "CITATIONS:\n" ++ citations_block ++ "\n\n"
    ++ "Corrected Draft:\n"

/-- The corrected-draft stage: only when gaps exist, call the LLM with
the remediation prompt; any error and any absent/empty response leave
the draft `none` (`llm_res.text.strip()` may itself be empty). -/
def draftStage (env : PipelineEnv) (gaps : List GapRecord)
    (scores : List BatchScored) (prefer : Option String) : Option String :=
  if gaps.isEmpty then none
  else
    match env.llmGenerate (draftPrompt gaps scores) prefer with
    | .error _ => none
    | .ok none => none
    | .ok (some r) => if r.text ≠ "" then some (pyStrip r.text) else none

/-- The report stage: `write_audit_pdf` with any failure leaving both
paths absent. -/
def reportStage (env : PipelineEnv) (args : ReportArgs) : ReportOut :=
  match env.writeAuditPdf args with
  | .ok o => o
  | .error _ => {}

/-- The structured result both entry points assemble. -/
structure AuditRunResult where
  policy_type : String
  composite : ℚ
  checklist : List ChecklistItem
  scores : List BatchScored
  gaps : List GapRecord
  report_path : Option String
  download_url : Option String
  annotated_path : Option String
  annotated_url : Option String
  corrected_draft : Option String
  deriving Repr, DecidableEq

/-- The annotate / corrected-draft / report tail shared verbatim by
`run` and `run_stream`, assembling the final result. -/
def assembleResult (env : PipelineEnv) (file_path ptype : String)
    (prefer : Option String) (composite : ℚ) (checklist : List ChecklistItem)
    (scores : List BatchScored) (gaps : List GapRecord) : AuditRunResult :=
  let ann := annotateStage env file_path gaps
  let corrected_draft := draftStage env gaps scores prefer
  let rep := reportStage env
    { policy_file_path := file_path
      policy_type := ptype
      composite := composite
      checklist := checklist
      scores := scores
      gaps := gaps
      corrected_draft := corrected_draft }
  { policy_type := ptype
    composite := composite
    checklist := checklist
    scores := scores
    gaps := gaps
    report_path := rep.report_path
    download_url := rep.download_url
    annotated_path := ann.1
    annotated_url := ann.2
    corrected_draft := corrected_draft }

/-- What the checklist stage gives the rest of the pipeline. -/
structure ChecklistCtx where
  framework : String
  topn : Int
  checklist : List ChecklistItem
  items : List QAItem
  deriving Repr, DecidableEq

/-- The checklist stage as both entry points run it: framework mapping,
top-k clamping, `generate_checklist` with failures defaulting to `[]`,
and the list of scoring items with non-empty normalised questions. -/
def checklistStage (env : PipelineEnv) (file_path : String) (ptype : String)
    (top_k : Int) (corpus_files : List String) : ChecklistCtx :=
  let framework := framework_for_policy_type ptype
  let topn := clamp_top_k top_k
  let checklist :=
    match env.ops.generate_checklist framework (file_path :: corpus_files) topn with
    | .ok gen => gen.items
    | .error _ => []
  let items := checklist.filterMap fun it =>
    let q := normalize_question it
    if q = "" then none else some (⟨q, ""⟩ : QAItem)
  ⟨framework, topn, checklist, items⟩

/-- Embedding of `PolicyAuditPipeline.run` (the blocking entry point).
An `Except.error` is an exception propagating out of the call: that
happens exactly for non-`TypeError` exceptions of the score stage, for
exceptions of its no-`prefer` retry, and for exceptions of the
`compute_gaps` call, none of which sit inside a `try`. -/
def run (env : PipelineEnv) (file_path org_id : String)
    (policy_type : Option String) (top_k : Int) (prefer : Option String) :
    Except PyExc AuditRunResult :=
  let ptype := classifyPolicyType policy_type file_path
  let corpus_files := discoverCorpus env
  -- index stage (result and failure both ignored by the blocking run)
  let _indexed := env.ops.index_documents (file_path :: corpus_files)
  let ctx := checklistStage env file_path ptype top_k corpus_files
  if ctx.items.isEmpty then
    .ok (assembleResult env file_path ptype prefer 0 ctx.checklist [] [])
  else
    let sid := stable_session_id org_id file_path
    let args : ScoreBatchArgs :=
      ⟨sid, org_id, "system", ctx.framework, ctx.items, ctx.topn⟩
    match effScoreBatch env.ops args prefer with
    | .error e => .error e
    | .ok out =>
        let scores := out.items
        let composite := out.composite_score
        if scores.isEmpty then
          .ok (assembleResult env file_path ptype prefer composite ctx.checklist
            scores [])
        else
          match env.ops.compute_gaps scores 4 with
          | .error e => .error e
          | .ok gaps_out =>
              .ok (assembleResult env file_path ptype prefer composite
                ctx.checklist scores gaps_out.items)

/-- The progress events `run_stream` yields. -/
inductive PipelineEvent where
  | classify (policy_type : String)
  | file_check (file_path : String) (found : Bool)
  | discover_corpus (count : Nat)
  | indexOk (files_indexed : Nat)
  | indexErr (error : String)
  | checklist (framework : String) (count : Nat)
  | score_start (items : Nat) (session_id : String) (k : Int)
  | score_done (items : Nat) (composite : ℚ)
  | score_skipped
  | gaps (count : Nat)
  | annotate (annotated_path annotated_url : Option String)
  | corrected_draft (present : Bool)
  | report (report_path download_url : Option String)
  | final (result : AuditRunResult)
  deriving Repr, DecidableEq

/-- The annotate / corrected-draft / report / final events of
`run_stream`, read off the assembled result. -/
def tailEvents (res : AuditRunResult) : List PipelineEvent :=
  [.annotate res.annotated_path res.annotated_url,
   .corrected_draft (pyTruthy res.corrected_draft),
   .report res.report_path res.download_url,
   .final res]

/-- Embedding of `PolicyAuditPipeline.run_stream` as the pair of the
events yielded to the consumer and the exception the generator then
raises, if any (`none` = the generator ran to completion). -/
def run_stream (env : PipelineEnv) (file_path org_id : String)
    (policy_type : Option String) (top_k : Int) (prefer : Option String) :
    List PipelineEvent × Option PyExc :=
  let ptype := classifyPolicyType policy_type file_path
  let corpus_files := discoverCorpus env
  let indexEv :=
    match env.ops.index_documents (file_path :: corpus_files) with
    | .ok _ => PipelineEvent.indexOk (1 + corpus_files.length)
    | .error e => PipelineEvent.indexErr e.msg
  let ctx := checklistStage env file_path ptype top_k corpus_files
  let pre : List PipelineEvent :=
    [.classify ptype,
     .file_check file_path (env.pathExists file_path),
     .discover_corpus corpus_files.length,
     indexEv,
     .checklist ctx.framework ctx.checklist.length]
  if ctx.items.isEmpty then
    let res := assembleResult env file_path ptype prefer 0 ctx.checklist [] []
    (pre ++ [.score_skipped, .gaps 0] ++ tailEvents res, none)
  else
    let sid := stable_session_id org_id file_path
    let args : ScoreBatchArgs :=
      ⟨sid, org_id, "system", ctx.framework, ctx.items, ctx.topn⟩
    let startEv := PipelineEvent.score_start ctx.items.length sid ctx.topn
    match effScoreBatch env.ops args prefer with
    | .error e => (pre ++ [startEv], some e)
    | .ok out =>
        let scores := out.items
        let composite := out.composite_score
        let doneEv := PipelineEvent.score_done scores.length composite
        if scores.isEmpty then
          let res := assembleResult env file_path ptype prefer composite
            ctx.checklist scores []
          (pre ++ [startEv, doneEv, .gaps 0] ++ tailEvents res, none)
        else
          match env.ops.compute_gaps scores 4 with
          | .error e => (pre ++ [startEv, doneEv], some e)
          | .ok gaps_out =>
              let res := assembleResult env file_path ptype prefer composite
                ctx.checklist scores gaps_out.items
              (pre ++ [startEv, doneEv, .gaps gaps_out.items.length]
                 ++ tailEvents res, none)

/-! ## `adk/http/router.py` — background job scheduler -/

/-- A job id
`f"job-{datetime.utcnow().strftime('%Y%m%d%H%M%S')}-{os.getpid()}-{abs(hash(req.file_path))%10000}"`.
The three rendered components (fixed-width second timestamp, pid,
4-digit hash) determine the string injectively, so the id is modelled
as the triple. -/
structure JobId where
  ts : Nat
  pid : Nat
  pathHash : Nat
  deriving Repr, DecidableEq

/-- Id generation: clock second, process id and `abs(hash(file_path)) % 10000`. -/
def mkJobId (now pid : Nat) (hashStr : String → Nat) (file_path : String) :
    JobId :=
  ⟨now, pid, hashStr file_path % 10000⟩

/-- The job request body (`PolicyAuditJobRequest`), also the shape of
the stored params dict. -/
structure JobRequest where
  file_path : String
  org_id : String := "default_org"
  policy_type : Option String := none
  top_k : Int := 8
  prefer : Option String := none
  deriving Repr, DecidableEq

/-- The `top_k` normalisation at job creation:
`params["top_k"] = max(1, min(20, pk))`. -/
def normalizeTopK (k : Int) : Int :=
  max 1 (min 20 k)

/-- The params normalisation `adk_policy_audit_job` performs before
registering the job: clamp `top_k` to [1,20], map `"auto"`
(case/space-insensitively) to no policy type, default an empty org id. -/
def normalizeParams (p : JobRequest) : JobRequest :=
  { p with
    top_k := normalizeTopK p.top_k
    policy_type :=
      match p.policy_type with
      | none => none
      | some s => if pyLower (pyStrip s) = "auto" then none else some s
    org_id := if p.org_id = "" then "default_org" else p.org_id }

/-- The effective top-N the pipeline's checklist and scoring stages use
for a job created with `top_k = k`: the job layer's [1,20] clamp
followed by the pipeline's `clamp_top_k` to [3,30]. -/
def effectiveTopN (k : Int) : Int :=
  clamp_top_k (normalizeTopK k)

/-- Job status values. -/
inductive JobStatus where
  | queued | running | cancelling | cancelled | completed | error
  deriving Repr, DecidableEq

/-- One registry entry (`_jobs[job_id]`): status, creation time, stored
params (the queue and task handle live in the transition model below). -/
structure JobEntry where
  status : JobStatus
  created_at : Nat
  params : JobRequest
  deriving Repr, DecidableEq

/-- One record of the `jobs.jsonl` history log. -/
structure HistRecord where
  job_id : JobId
  status : JobStatus
  created_at : Nat
  params : JobRequest
  deriving Repr, DecidableEq

/-- Scheduler state: the in-memory registry (a dict keyed by job id;
re-registering an id overwrites) and the on-disk history, most relevant
match first as `rerun` scans it. -/
structure SchedState where
  registry : JobId → Option JobEntry
  history : List HistRecord

/-- The empty scheduler. -/
def emptySched : SchedState :=
  { registry := fun _ => none, history := [] }

/-- Embedding of `adk_policy_audit_job`: generate the id, normalise the
params, register the job as Queued and schedule the task.  Returns the
id with the updated state. -/
def createJob (st : SchedState) (now pid : Nat) (hashStr : String → Nat)
    (req : JobRequest) : JobId × SchedState :=
  let id := mkJobId now pid hashStr req.file_path
  let params := normalizeParams req
  (id,
    { st with
      registry := fun j =>
        if j = id then some ⟨.queued, now, params⟩ else st.registry j })

/-- The params lookup `adk_policy_audit_job_rerun` performs: the
in-memory registry first, then the first matching record of the on-disk
history log. -/
def rerunParamsLookup (st : SchedState) (job_id : JobId) :
    Option JobRequest :=
  match st.registry job_id with
  | some j => some j.params
  | none => (st.history.find? fun r => r.job_id = job_id).map (·.params)

/-- Embedding of `adk_policy_audit_job_rerun`: find the original params
in the registry first and the history second, reject a missing job or a
missing `file_path`, then create a new job with those params. -/
def rerunJob (st : SchedState) (now pid : Nat) (hashStr : String → Nat)
    (job_id : JobId) : Option (JobId × SchedState) :=
  match rerunParamsLookup st job_id with
  | none => none
  | some p =>
      if p.file_path = "" then none
      else some (createJob st now pid hashStr
        { file_path := p.file_path
          org_id := p.org_id
          policy_type := p.policy_type
          top_k := p.top_k
          prefer := p.prefer })

/-! ### Status transitions (`_start_audit_job`, `adk_policy_audit_job_cancel`)

The status field is only ever assigned by five sites, each of which
writes a constant: the task body's entry (`"running"`), its normal end
(`"completed"`), its `except Exception` handler (`"error"`), its
`except asyncio.CancelledError` handler (`"cancelled"`), and the cancel
endpoint (`"cancelling"`, written for any registered job regardless of
its current status).  Which site can fire when is captured by a small
task-phase automaton: the body runs at most once and only if no cancel
arrived before its first step; exactly one terminal handler runs, after
the body started; the cancelled handler requires a prior cancel
request; the cancel endpoint may fire at any time. -/

/-- The five status-assignment sites. -/
inductive JobOp where
  | start | complete | taskError | cancelObserved | cancelEndpoint
  deriving Repr, DecidableEq

/-- The constant status each site assigns (each assignment in the code
overwrites unconditionally). -/
def applyOp (_s : JobStatus) : JobOp → JobStatus
  | .start => .running
  | .complete => .completed
  | .taskError => .error
  | .cancelObserved => .cancelled
  | .cancelEndpoint => .cancelling

/-- Scheduling phase of the background task. -/
structure TaskPhase where
  started : Bool
  finished : Bool
  cancelReq : Bool
  deriving Repr, DecidableEq

/-- The initial phase right after `create` registered the job. -/
def initPhase : TaskPhase :=
  ⟨false, false, false⟩

/-- When each assignment site can fire. -/
def opAllowed (ph : TaskPhase) : JobOp → Bool
  | .start => !ph.started && !ph.finished && !ph.cancelReq
  | .complete => ph.started && !ph.finished
  | .taskError => ph.started && !ph.finished
  | .cancelObserved => ph.started && !ph.finished && ph.cancelReq
  | .cancelEndpoint => true

/-- Phase evolution. -/
def phaseStep (ph : TaskPhase) : JobOp → TaskPhase
  | .start => { ph with started := true }
  | .complete => { ph with finished := true }
  | .taskError => { ph with finished := true }
  | .cancelObserved => { ph with finished := true }
  | .cancelEndpoint => { ph with cancelReq := true }

/-- A sequence of assignment sites the scheduler can actually execute
for one job. -/
def validOps (ph : TaskPhase) : List JobOp → Bool
  | [] => true
  | op :: rest => opAllowed ph op && validOps (phaseStep ph op) rest

/-- The statuses a job reports along a sequence of assignments,
starting status included. -/
def statusTrace (s : JobStatus) : List JobOp → List JobStatus
  | [] => [s]
  | op :: rest => s :: statusTrace (applyOp s op) rest

/-- The order claimed by the spec:
Queued → Running → \x7bCompleted | Error | Cancelling → Cancelled\x7d
(reflexive-transitive closure of the diagram). -/
def claimLe : JobStatus → JobStatus → Bool
  | .queued, _ => true
  | .running, .queued => false
  | .running, _ => true
  | .cancelling, .cancelling => true
  | .cancelling, .cancelled => true
  | .cancelling, _ => false
  | .cancelled, t => t = .cancelled
  | .completed, t => t = .completed
  | .error, t => t = .error

/-- Adjacent-pairs check of a status trace against `claimLe`. -/
def chainLe : List JobStatus → Bool
  | [] => true
  | [_] => true
  | a :: b :: rest => claimLe a b && chainLe (b :: rest)

/-- One transition of the amended discipline: forward along the claimed
order, or a cancel-endpoint write of Cancelling from any status, or a
terminal completion/error racing a pending cancel request. -/
def amendedStepOk (s t : JobStatus) : Bool :=
  claimLe s t || t == .cancelling
    || (s == .cancelling && (t == .completed || t == .error))

/-- Adjacent-pairs check of a status trace against `amendedStepOk`. -/
def chainAmended : List JobStatus → Bool
  | [] => true
  | [_] => true
  | a :: b :: rest => amendedStepOk a b && chainAmended (b :: rest)

/-! ### The job event stream (`adk_policy_audit_job_stream`) -/

/-- What one iteration of the stream loop observes on the job queue:
either `asyncio.wait_for` timed out after the heartbeat interval, or an
item was dequeued — a pipeline event or the `"[DONE]"` sentinel. -/
inductive QueueObs where
  | timeout
  | item (ev : PipelineEvent)
  | done
  deriving Repr, DecidableEq

/-- One SSE frame (`data: <payload>\n\n`). -/
inductive Frame where
  | heartbeat
  | event (ev : PipelineEvent)
  | done
  deriving Repr, DecidableEq

/-- The heartbeat interval of the stream loop, in seconds. -/
def heartbeatSeconds : Nat := 15

/-- Embedding of the stream loop of `adk_policy_audit_job_stream`: a
timeout yields a heartbeat frame and the loop continues; a dequeued
`"[DONE]"` yields the terminator frame and stops; any other item is
forwarded as a frame. -/
def streamFrames : List QueueObs → List Frame
  | [] => []
  | .timeout :: rest => .heartbeat :: streamFrames rest
  | .done :: _ => [.done]
  | .item ev :: rest => .event ev :: streamFrames rest

/-! ## Helper lemmas -/

/-- The gap loop is the sub-threshold filter, mapped through the record
builder. -/
lemma analyzeGapsItems_eq_filter (m : Int) (l : List ScoredItem) :
    analyzeGapsItems l m
      = (l.filter fun it => decide (itemScore it < m)).map mkGapRecord := by
  induction l with
  | nil => simp [analyzeGapsItems]
  | cons it rest ih =>
      by_cases hge : itemScore it ≥ m
      · have : ¬ itemScore it < m := by omega
        simp [analyzeGapsItems, hge, this, ih]
      · have : itemScore it < m := by omega
        simp [analyzeGapsItems, hge, this, ih]

/-- The scoring loop counts every item and totals exactly the scores of
the records it returns. -/
lemma scoreBatchLoop_spec (f : String → String → ScoreQOut) :
    ∀ items : List QAItem,
      (scoreBatchLoop f items).2.2 = items.length ∧
      (scoreBatchLoop f items).1.length = items.length ∧
      (scoreBatchLoop f items).2.1
        = ((scoreBatchLoop f items).1.map fun r => (r.score : ℚ)).sum := by
  intro items
  induction items with
  | nil => simp [scoreBatchLoop]
  | cons it rest ih =>
      rcases hsl : scoreBatchLoop f rest with ⟨rs, t, c⟩
      rw [hsl] at ih
      simp only [scoreBatchLoop, hsl] at *
      simp [ih.1, ih.2.1, ih.2.2]

/-- Splitting a list into `n`-sized slices at indices `0, n, 2n, …`
and concatenating them reproduces the list. -/
lemma chunkFragsL_flatten (n : Nat) (hn : 0 < n) :
    ∀ (L : Nat) (cs : List Char), cs.length = L →
      (chunkFragsL cs n).flatten = cs := by
  intro L
  induction L using Nat.strong_induction_on with
  | _ L IH =>
    intro cs hlen
    by_cases h0 : cs = []
    · subst h0
      have hz : (0 + n - 1) / n = 0 := Nat.div_eq_of_lt (by omega)
      simp [chunkFragsL, hz]
    · have hL1 : 1 ≤ cs.length := by
        cases cs with
        | nil => exact absurd rfl h0
        | cons a l => simp
      have key : (cs.length + n - 1) / n
          = (((cs.drop n).length + n - 1) / n) + 1 := by
        rw [List.length_drop]
        have h1 : cs.length + n - 1 = (cs.length - 1) + n := by omega
        rw [h1, Nat.add_div_right _ hn]
        rcases le_or_lt cs.length n with h | h
        · have hz : cs.length - n = 0 := by omega
          rw [hz]
          have e1 : (cs.length - 1) / n = 0 := Nat.div_eq_of_lt (by omega)
          have e2 : (0 + n - 1) / n = 0 := Nat.div_eq_of_lt (by omega)
          omega
        · have hz : cs.length - n + n - 1 = cs.length - 1 := by omega
          rw [hz]
      have hr : List.range' n (((cs.drop n).length + n - 1) / n) n
          = (List.range' 0 (((cs.drop n).length + n - 1) / n) n).map
              fun x => n + x := by
        rw [List.map_add_range', Nat.add_zero]
      have hshift : (List.range' n (((cs.drop n).length + n - 1) / n) n).map
            (fun i => (cs.drop i).take n)
          = chunkFragsL (cs.drop n) n := by
        rw [chunkFragsL, hr, List.map_map]
        apply List.map_congr_left
        intro i _
        simp [Function.comp, List.drop_drop, Nat.add_comm]
      have htail : (chunkFragsL (cs.drop n) n).flatten = cs.drop n := by
        apply IH (cs.drop n).length _ (cs.drop n) rfl
        rw [List.length_drop]
        omega
      rw [chunkFragsL, key, List.range'_succ, List.map_cons, List.flatten_cons,
        Nat.zero_add, hshift, htail, List.drop_zero, List.take_append_drop]

/-- String-level corollary: concatenating the `chunk_size` fragments of
a string reproduces it, for any positive chunk size. -/
lemma chunkFrags_join (n : Nat) (hn : 0 < n) (s : String) :
    String.join (chunkFrags s n) = s := by
  apply String.ext
  rw [chunkFrags, String.data_join, List.map_map]
  have hid : ∀ l : List (List Char), l.map (String.data ∘ List.asString) = l := by
    intro l
    induction l with
    | nil => rfl
    | cons a t ih =>
        rw [List.map_cons, ih]
        rfl
  rw [hid, chunkFragsL_flatten n hn s.data.length s.data rfl]

/-- Relation between a job's task phase and the status it currently
reports: before anything ran (and with no cancel pending) the status is
Queued; while the task body is running it is Running unless a cancel
endpoint call overwrote it with Cancelling. -/
def phaseInv (ph : TaskPhase) (s : JobStatus) : Prop :=
  (ph.started = false → ph.cancelReq = false → s = .queued) ∧
  (ph.started = true → ph.finished = false →
    s = .running ∨ s = .cancelling)

/-- Unfolding `chainAmended` along a status trace. -/
lemma chainAmended_cons (s s' : JobStatus) (ops : List JobOp) :
    chainAmended (s :: statusTrace s' ops)
      = (amendedStepOk s s' && chainAmended (statusTrace s' ops)) := by
  cases ops <;> simp [statusTrace, chainAmended]

/-- Along any executable sequence of status assignments, every step is
forward in the claimed order, or a cancel-endpoint write of Cancelling,
or a terminal write racing a pending cancel. -/
lemma statusAmended_aux :
    ∀ (ops : List JobOp) (ph : TaskPhase) (s : JobStatus),
      validOps ph ops = true → phaseInv ph s →
      chainAmended (statusTrace s ops) = true := by
  intro ops
  induction ops with
  | nil =>
      intro ph s _ _
      simp [statusTrace, chainAmended]
  | cons op rest ih =>
      intro ph s hv hinv
      rw [statusTrace, chainAmended_cons]
      simp only [validOps, Bool.and_eq_true] at hv
      obtain ⟨hop, hrest⟩ := hv
      rw [Bool.and_eq_true]
      refine ⟨?_, ih (phaseStep ph op) (applyOp s op) hrest ?_⟩
      · -- the step respects the amended discipline
        cases op with
        | start =>
            simp only [opAllowed, Bool.and_eq_true, Bool.not_eq_true'] at hop
            have hq : s = .queued := hinv.1 hop.1.1 hop.2
            subst hq
            decide
        | complete =>
            simp only [opAllowed, Bool.and_eq_true, Bool.not_eq_true'] at hop
            rcases hinv.2 hop.1 hop.2 with h | h <;> subst h <;> decide
        | taskError =>
            simp only [opAllowed, Bool.and_eq_true, Bool.not_eq_true'] at hop
            rcases hinv.2 hop.1 hop.2 with h | h <;> subst h <;> decide
        | cancelObserved =>
            simp only [opAllowed, Bool.and_eq_true, Bool.not_eq_true'] at hop
            rcases hinv.2 hop.1.1 hop.1.2 with h | h <;> subst h <;> decide
        | cancelEndpoint =>
            cases s <;> decide
      · -- the invariant is preserved
        cases op with
        | start =>
            exact ⟨fun h _ => by simp [phaseStep] at h, fun _ _ => Or.inl rfl⟩
        | complete =>
            simp only [opAllowed, Bool.and_eq_true, Bool.not_eq_true'] at hop
            exact ⟨fun h _ => by simp [phaseStep, hop.1] at h,
              fun _ h => by simp [phaseStep] at h⟩
        | taskError =>
            simp only [opAllowed, Bool.and_eq_true, Bool.not_eq_true'] at hop
            exact ⟨fun h _ => by simp [phaseStep, hop.1] at h,
              fun _ h => by simp [phaseStep] at h⟩
        | cancelObserved =>
            simp only [opAllowed, Bool.and_eq_true, Bool.not_eq_true'] at hop
            exact ⟨fun h _ => by simp [phaseStep, hop.1.1] at h,
              fun _ h => by simp [phaseStep] at h⟩
        | cancelEndpoint =>
            exact ⟨fun _ h => by simp [phaseStep] at h,
              fun _ _ => Or.inr rfl⟩

/-- `normalizeParams` is idempotent: re-normalising stored params (as a
rerun does) changes nothing. -/
lemma normalizeParams_idem (p : JobRequest) :
    normalizeParams (normalizeParams p) = normalizeParams p := by
  obtain ⟨fp, org, pt, tk, pref⟩ := p
  have hd : ¬ ("default_org" = "") := by decide
  simp only [normalizeParams, normalizeTopK]
  cases pt with
  | none =>
      by_cases horg : org = "" <;>
        simp [horg, hd, JobRequest.mk.injEq]
  | some s =>
      by_cases ha : pyLower (pyStrip s) = "auto" <;>
        by_cases horg : org = "" <;>
          simp [ha, horg, hd, JobRequest.mk.injEq]

/-! ## Claim theorems -/

/-- C4: for every list of scored items, `compute_gaps` with
`min_score = 4` returns exactly the items scoring below the threshold
(score read as an integer, 0 when absent), as the sub-threshold filter
of the input mapped through the gap-record builder — so membership is
equivalent to `score < 4`, the relative order is preserved, and the
reported count equals the number of such items. -/
theorem compute_gaps_spec (l : List ScoredItem) :
    (compute_gaps l 4).items
        = (l.filter fun it => decide (itemScore it < 4)).map mkGapRecord
      ∧ (compute_gaps l 4).count
        = (l.filter fun it => decide (itemScore it < 4)).length := by
  have h := analyzeGapsItems_eq_filter 4 l
  constructor
  · exact h
  · simp [compute_gaps, analyze_gaps, h]

/-- C5: for every batch-scoring call, the `composite_score` equals the
arithmetic mean of the per-item scores of the batch, and `0.0` when no
items were scored. -/
theorem score_batch_composite_mean (f : String → String → ScoreQOut)
    (items : List QAItem) :
    (score_batch f items).composite_score
      = if (score_batch f items).items = [] then 0
        else (((score_batch f items).items.map fun r => (r.score : ℚ)).sum)
              / (((score_batch f items).items.length : ℚ)) := by
  obtain ⟨hc, hl, ht⟩ := scoreBatchLoop_spec f items
  rcases hsl : scoreBatchLoop f items with ⟨rs, t, c⟩
  rw [hsl] at hc hl ht
  simp only [score_batch, hsl]
  dsimp only at hc hl ht ⊢
  subst hc ht
  rcases items with _ | ⟨it, rest⟩
  · have : rs = [] := List.length_eq_zero.mp (by simpa using hl)
    simp [this]
  · have hne : rs ≠ [] := by
      intro h
      rw [h] at hl
      simp at hl
    simp [hl, hne]

/-- C7 counterexample: for `top_k = 25` the effective top-N is 20, not
`max(3, min(25, 30)) = 25` — the job layer clamps to [1,20] before the
pipeline clamps to [3,30], so the claimed clamp to [3,30] is wrong
above 20. -/
theorem effectiveTopN_counterexample :
    effectiveTopN 25 = 20 ∧ max 3 (min (25 : Int) 30) = 25
      ∧ effectiveTopN 25 ≠ max 3 (min (25 : Int) 30) := by
  decide

/-- C7 amended: for every integer `k` supplied at job creation, the
effective top-N used by the pipeline's checklist and scoring stages is
`max(3, min(k, 20))`: the job layer first clamps to [1,20]
(`max(1, min(20, k))`), and the pipeline then clamps that to [3,30]
(`clamp_top_k`). -/
theorem effectiveTopN_amended (k : Int) :
    effectiveTopN k = max 3 (min k 20) := by
  simp only [effectiveTopN, clamp_top_k, normalizeTopK]
  omega

/-- C10: with the mock flag enabled, `generate` is deterministic in the
prompt alone — the preferred-provider and temperature arguments are
ignored, the response is exactly `MOCK: <prompt>` tagged provider/model
`mock`, and no provider backend is contacted (the list of attempted
backends is empty). -/
theorem generate_mock_deterministic (env : LLMEnv) (prompt : String)
    (p₁ p₂ : Option String) (t₁ t₂ : ℚ) (hm : env.mock = true) :
    generate env prompt p₁ t₁ = generate env prompt p₂ t₂
      ∧ (generate env prompt p₁ t₁).1 = []
      ∧ (generate env prompt p₁ t₁).2
          = some ⟨"MOCK: " ++ prompt, "mock", "mock"⟩ := by
  simp [generate, hm]

/-- A concrete mock-mode router environment. -/
def mockOnlyEnv : LLMEnv :=
  { mock := true
    prefer := "groq"
    openaiKey := false
    groqKey := false
    googleKey := false
    geminiKey := false
    backends := fun _ => none
    nativeStream := fun _ => none }

/-- C10 witness: the mock-determinism theorem at a concrete environment
and prompt, with the mock hypothesis discharged by evaluation. -/
theorem generate_mock_deterministic_witness :
    generate mockOnlyEnv "X" (some "openai") (1 : ℚ)
        = generate mockOnlyEnv "X" (some "gemini") (0 : ℚ)
      ∧ (generate mockOnlyEnv "X" (some "openai") (1 : ℚ)).1 = []
      ∧ (generate mockOnlyEnv "X" (some "openai") (1 : ℚ)).2
          = some ⟨"MOCK: X", "mock", "mock"⟩ :=
  generate_mock_deterministic mockOnlyEnv "X" (some "openai") (some "gemini")
    (1 : ℚ) (0 : ℚ) rfl

/-- C3: when the same (mock) backend answers both calls, the in-order
concatenation of all fragments yielded by `generate_stream` equals the
text the non-streaming `generate` returns for the same inputs, for
every prompt, preferred provider, temperature and positive chunk
size. -/
theorem generate_stream_concat_eq_generate (env : LLMEnv) (prompt : String)
    (n : Nat) (pref : Option String) (temp : ℚ)
    (hm : env.mock = true) (hn : 0 < n) :
    ∃ r, (generate env prompt pref temp).2 = some r
      ∧ String.join (generate_stream env prompt n pref temp) = r.text := by
  refine ⟨⟨"MOCK: " ++ prompt, "mock", "mock"⟩, by simp [generate, hm], ?_⟩
  simp only [generate_stream, hm, if_true, mockText]
  exact chunkFrags_join n hn _

/-- C3 witness: the streaming/non-streaming agreement at a concrete
environment, prompt and chunk size. -/
theorem generate_stream_concat_eq_generate_witness :
    ∃ r, (generate mockOnlyEnv "hello world" (some "groq") (2 : ℚ)).2 = some r
      ∧ String.join (generate_stream mockOnlyEnv "hello world" 3
            (some "groq") (2 : ℚ)) = r.text :=
  generate_stream_concat_eq_generate mockOnlyEnv "hello world" 3 (some "groq")
    (2 : ℚ) rfl (by decide)

/-- C9: the stream loop's heartbeat interval is 15 seconds; whenever an
iteration times out without a queue item, a heartbeat frame is yielded
before any later stage-event frame; and the stream terminates exactly
when the `[DONE]` sentinel is dequeued — everything before the first
sentinel is forwarded, the terminator frame is emitted, and nothing
after the sentinel is read. -/
theorem stream_heartbeat_done :
    heartbeatSeconds = 15
      ∧ (∀ rest : List QueueObs,
          streamFrames (.timeout :: rest) = .heartbeat :: streamFrames rest)
      ∧ (∀ pre post : List QueueObs, QueueObs.done ∉ pre →
          streamFrames (pre ++ QueueObs.done :: post)
            = streamFrames pre ++ [Frame.done]) := by
  refine ⟨rfl, fun rest => rfl, fun pre post hpre => ?_⟩
  induction pre with
  | nil => simp [streamFrames]
  | cons o rest ih =>
      have hno : QueueObs.done ∉ rest := fun h => hpre (List.mem_cons_of_mem _ h)
      have hod : o ≠ QueueObs.done := fun h => hpre (h ▸ List.mem_cons_self _ _)
      cases o with
      | timeout => simp [streamFrames, ih hno]
      | item ev => simp [streamFrames, ih hno]
      | done => exact absurd rfl hod

/-- C9 witness: the heartbeat and termination behaviour at a concrete
observation sequence. -/
theorem stream_heartbeat_done_witness :
    streamFrames ([QueueObs.timeout] ++ QueueObs.done :: [QueueObs.timeout])
      = streamFrames [QueueObs.timeout] ++ [Frame.done] :=
  (stream_heartbeat_done).2.2 [QueueObs.timeout] [QueueObs.timeout] (by decide)

/-- An executable assignment sequence on which the claimed monotonicity
fails: the task runs to completion, then the cancel endpoint is invoked
on the completed job. -/
def completedThenCancel : List JobOp :=
  [.start, .complete, .cancelEndpoint]

/-- C2 counterexample: the sequence create → task start → task
completion → cancel is executable, yet its status trace
Queued, Running, Completed, Cancelling leaves the claimed order — the
cancel endpoint sets Cancelling on a job that had already reported
Completed, because `adk_policy_audit_job_cancel` assigns
`job["status"] = "cancelling"` for any registered job regardless of its
current status. -/
theorem job_status_monotonic_counterexample :
    validOps initPhase completedThenCancel = true
      ∧ statusTrace JobStatus.queued completedThenCancel
          = [.queued, .running, .completed, .cancelling]
      ∧ chainLe (statusTrace JobStatus.queued completedThenCancel) = false := by
  decide

/-- C2 amended: along every executable sequence of status assignments,
each transition moves forward along
Queued → Running → \x7bCompleted | Error | Cancelling → Cancelled\x7d
except that (a) the cancel endpoint may write Cancelling from any
status, completed/errored/cancelled jobs included, and (b) the task's
completion or error handler may overwrite a pending Cancelling when it
finishes before the cancellation is delivered. -/
theorem job_status_monotonic_amended (ops : List JobOp)
    (h : validOps initPhase ops = true) :
    chainAmended (statusTrace JobStatus.queued ops) = true :=
  statusAmended_aux ops initPhase .queued h
    ⟨fun _ _ => rfl, fun h1 _ => by simp [initPhase] at h1⟩

/-- C2 witness: the amended discipline holds along a concrete
executable trace (start, cancel request, cancellation observed). -/
theorem job_status_monotonic_amended_witness :
    chainAmended (statusTrace JobStatus.queued
      [JobOp.start, JobOp.cancelEndpoint, JobOp.cancelObserved]) = true :=
  job_status_monotonic_amended
    [JobOp.start, JobOp.cancelEndpoint, JobOp.cancelObserved] (by decide)

/-- A concrete hash oracle for `abs(hash(file_path)) % 10000`. -/
def fixedHash : String → Nat :=
  fun s => s.length * 7

/-- A concrete original job request. -/
def origReq : JobRequest :=
  { file_path := "uploads/policy.pdf"
    org_id := "acme"
    policy_type := some "hr"
    top_k := 6
    prefer := none }

/-- C6 counterexample: a rerun issued in the same clock second, in the
same process, returns an id equal to the original job's id — the id is
built only from the second-granularity timestamp, the pid and a hash of
the unchanged file path, so it is not fresh. -/
theorem rerun_same_second_counterexample :
    (let created := createJob emptySched 20260101120000 77 fixedHash origReq
     let rr := rerunJob created.2 20260101120000 77 fixedHash created.1
     rr.map Prod.fst = some created.1) := by
  decide

/-- C6 amended: for any known job — its params found in the in-memory
registry first or, failing that, in the on-disk history log — with
normalised stored params (as `create` stores them and the scheduler
persists them), `rerun` creates a job with exactly the original params
(file_path, org_id, policy_type, top_k, prefer); its id is built from
the rerun-time clock second, pid and file-path hash, and therefore
differs from the original id whenever the clock second or the pid
differs — only a rerun in the same second of the same process reuses
the id. -/
theorem rerun_params_identical_amended (st : SchedState) (now' pid' : Nat)
    (hashStr : String → Nat) (jid : JobId) (p : JobRequest) (q : JobRequest)
    (hfound : rerunParamsLookup st jid = some p)
    (hnorm : p = normalizeParams q)
    (hfp : p.file_path ≠ "") :
    ∃ nid st', rerunJob st now' pid' hashStr jid = some (nid, st')
      ∧ (st'.registry nid).map (·.params) = some p
      ∧ nid = mkJobId now' pid' hashStr p.file_path
      ∧ ((jid.ts ≠ now' ∨ jid.pid ≠ pid') → nid ≠ jid) := by
  have hrr : rerunJob st now' pid' hashStr jid
      = some (createJob st now' pid' hashStr p) := by
    simp only [rerunJob, hfound]
    rw [if_neg hfp]
  refine ⟨mkJobId now' pid' hashStr p.file_path,
    (createJob st now' pid' hashStr p).2, hrr, ?_, rfl, ?_⟩
  · show (Option.map (fun x => x.params)
      (if mkJobId now' pid' hashStr p.file_path
            = mkJobId now' pid' hashStr p.file_path
        then some ⟨.queued, now', normalizeParams p⟩
        else st.registry (mkJobId now' pid' hashStr p.file_path)))
      = some p
    rw [if_pos rfl]
    show some (normalizeParams p) = some p
    rw [hnorm, normalizeParams_idem]
  · intro hne heq
    cases heq
    rcases hne with h | h
    · exact h rfl
    · exact h rfl

/-- A distinct original request for the C6 witness. -/
def origReqW : JobRequest :=
  { file_path := "uploads/other.pdf"
    org_id := ""
    policy_type := some "Auto"
    top_k := 99
    prefer := some "groq" }

/-- A scheduler state after a restart: the in-memory registry is empty
and the original job survives only as a history-log record (the
persisted params are the normalised ones the scheduler stored). -/
def histSched : SchedState :=
  { registry := fun _ => none
    history := [⟨mkJobId 100 5 fixedHash "uploads/other.pdf", .completed, 100,
        normalizeParams origReqW⟩] }

/-- C6 witness: the amended rerun theorem applied through the
history-log lookup path — the registry is empty, the original job
(created at second 100 in pid 5) is found in the history, and the rerun
happens at second 101. -/
theorem rerun_params_identical_amended_witness :
    ∃ nid st',
      rerunJob histSched 101 5 fixedHash
          (mkJobId 100 5 fixedHash "uploads/other.pdf") = some (nid, st')
      ∧ (st'.registry nid).map (·.params) = some (normalizeParams origReqW)
      ∧ nid = mkJobId 101 5 fixedHash (normalizeParams origReqW).file_path
      ∧ (((mkJobId 100 5 fixedHash "uploads/other.pdf").ts ≠ 101
            ∨ (mkJobId 100 5 fixedHash "uploads/other.pdf").pid ≠ 5)
          → nid ≠ mkJobId 100 5 fixedHash "uploads/other.pdf") :=
  rerun_params_identical_amended histSched 101 5 fixedHash
    (mkJobId 100 5 fixedHash "uploads/other.pdf") (normalizeParams origReqW)
    origReqW (by decide) rfl (by decide)

/-- An orchestrator whose score stage raises a non-`TypeError`
exception (all other collaborators succeed). -/
def errScoreOps : OrchOps :=
  { index_documents := fun _ => .ok ()
    generate_checklist := fun _ _ _ =>
      .ok ⟨"GDPR", "1.0", [{ question := some "Q1" }]⟩
    score_batch := fun _ _ => .error ⟨"boom", false⟩
    score_batch_noprefer := fun _ => .error ⟨"retry failed", false⟩
    compute_gaps := fun _ _ => .ok ⟨0, []⟩
    annotate_policy := fun _ _ _ => .ok "" }

/-- The non-orchestrator collaborators, all succeeding; the file system
has no reachable paths. -/
def plainEnvWith (ops : OrchOps) : PipelineEnv :=
  { ops := ops
    llmGenerate := fun _ _ => .ok none
    writeAuditPdf := fun _ => .ok {}
    pathExists := fun _ => false
    relToRoot := fun _ => none
    annotatedOutPath := fun p => p
    corpusCandidates := []
    resolvePath := fun p => p }

/-- The environment of the C1 counterexample. -/
def errScoreEnv : PipelineEnv :=
  plainEnvWith errScoreOps

/-- C1 counterexample: a scoring collaborator that raises a
non-`TypeError` exception makes both `run` and `run_stream` propagate
it — the score stage's `try` catches only `TypeError` — so the claimed
all-stage fault isolation fails. -/
theorem pipeline_stage_isolation_counterexample :
    run errScoreEnv "policy.pdf" "acme" (some "hr") 8 none
        = .error ⟨"boom", false⟩
      ∧ (run_stream errScoreEnv "policy.pdf" "acme" (some "hr") 8 none).2
        = some ⟨"boom", false⟩ := by
  constructor <;> rfl

/-- C1 amended: the index, checklist, annotate, corrected-draft and
report stages are each fault-isolated (their failures default their
contribution, and later stages still run), but the score stage catches
only `TypeError` (retrying once without `prefer`) and the gaps stage is
not wrapped at all — whenever the effective score call and the
`compute_gaps` call return normally, both entry points complete without
propagating an exception; otherwise those exceptions escape (see the
counterexample). -/
theorem pipeline_stage_isolation_amended (env : PipelineEnv)
    (file_path org_id : String) (policy_type : Option String) (top_k : Int)
    (prefer : Option String)
    (hs : ∀ args pref, ∃ out, effScoreBatch env.ops args pref = .ok out)
    (hg : ∀ l m, ∃ out, env.ops.compute_gaps l m = .ok out) :
    (∃ r, run env file_path org_id policy_type top_k prefer = .ok r)
      ∧ (run_stream env file_path org_id policy_type top_k prefer).2
          = none := by
  set ptype := classifyPolicyType policy_type file_path with hpt
  set cf := discoverCorpus env with hcf
  set ctx := checklistStage env file_path ptype top_k cf with hctx
  constructor
  · simp only [run, ← hpt, ← hcf, ← hctx]
    by_cases hi : ctx.items.isEmpty
    · rw [if_pos hi]
      exact ⟨_, rfl⟩
    · rw [if_neg hi]
      obtain ⟨out, hout⟩ := hs
        ⟨stable_session_id org_id file_path, org_id, "system",
          ctx.framework, ctx.items, ctx.topn⟩ prefer
      rw [hout]
      by_cases ho : out.items.isEmpty
      · simp only [ho, if_pos]
        exact ⟨_, rfl⟩
      · simp only [ho, if_neg]
        obtain ⟨g, hgout⟩ := hg out.items 4
        rw [hgout]
        exact ⟨_, rfl⟩
  · simp only [run_stream, ← hpt, ← hcf, ← hctx]
    by_cases hi : ctx.items.isEmpty
    · rw [if_pos hi]
    · rw [if_neg hi]
      obtain ⟨out, hout⟩ := hs
        ⟨stable_session_id org_id file_path, org_id, "system",
          ctx.framework, ctx.items, ctx.topn⟩ prefer
      rw [hout]
      by_cases ho : out.items.isEmpty
      · simp only [ho, if_pos]
      · simp only [ho, if_neg]
        obtain ⟨g, hgout⟩ := hg out.items 4
        rw [hgout]
        rfl

/-- An orchestrator whose collaborators all succeed (the scorer gives
every question a 5). -/
def okOps : OrchOps :=
  { index_documents := fun _ => .ok ()
    generate_checklist := fun _ _ _ =>
      .ok ⟨"GDPR", "1.0", [{ question := some "Q1" }]⟩
    score_batch := fun args _ =>
      .ok ⟨args.items.map fun it =>
            ⟨it.question, it.user_answer, 5, "ok", [], "mock", "mock"⟩, 5⟩
    score_batch_noprefer := fun args =>
      .ok ⟨args.items.map fun it =>
            ⟨it.question, it.user_answer, 5, "ok", [], "mock", "mock"⟩, 5⟩
    compute_gaps := fun _ _ => .ok ⟨0, []⟩
    annotate_policy := fun _ _ _ => .ok "" }

/-- An all-collaborators-succeed pipeline environment. -/
def okEnv : PipelineEnv :=
  plainEnvWith okOps

/-- C1 witness: the amended isolation theorem at a concrete environment
whose score and gaps calls succeed. -/
theorem pipeline_stage_isolation_amended_witness :
    (∃ r, run okEnv "f.pdf" "acme" (some "hr") 8 none = .ok r)
      ∧ (run_stream okEnv "f.pdf" "acme" (some "hr") 8 none).2 = none :=
  pipeline_stage_isolation_amended okEnv "f.pdf" "acme" (some "hr") 8 none
    (fun _ _ => ⟨_, rfl⟩) (fun _ _ => ⟨_, rfl⟩)

/-- Plugging the real checklist generator
(`Orchestrator.generate_checklist = generate_checklist_from_docs`) into
a pipeline environment. -/
def withDocsChecklist (env : PipelineEnv) (cenv : ChecklistEnv) :
    PipelineEnv :=
  { env with ops :=
      { env.ops with generate_checklist := generate_checklist_from_docs cenv } }

/-- A checklist store holding one GDPR item, over a filesystem on which
no path yields text. -/
def oneItemChecklistEnv : ChecklistEnv :=
  { loadChecklist := fun fw =>
      if fw = "GDPR" then
        .ok { framework := some "GDPR", version := some "1.0",
              items := [{ question := some "Q1" }] }
      else .error ⟨"Checklist not found", false⟩
    fsText := fun _ => none }

/-- C8 counterexample: with the real checklist generator and a GDPR
checklist holding one item, `run` on a nonexistent file path returns a
NON-empty checklist (and non-empty scores): item selection scores the
checklist against the corpus text only and keeps the top N even when
the uploaded file does not exist, so the claimed empty result is
wrong. -/
theorem run_missing_file_counterexample :
    (withDocsChecklist okEnv oneItemChecklistEnv).pathExists "nope.pdf" = false
      ∧ oneItemChecklistEnv.fsText "nope.pdf" = none
      ∧ (run (withDocsChecklist okEnv oneItemChecklistEnv) "nope.pdf"
            "acme" (some "hr") 5 none).map (fun r => r.checklist.length)
          = .ok 1
      ∧ (run (withDocsChecklist okEnv oneItemChecklistEnv) "nope.pdf"
            "acme" (some "hr") 5 none).map (fun r => r.scores.length)
          = .ok 1 := by
  refine ⟨rfl, rfl, ?_, ?_⟩ <;> rfl

/-- C8 amended: `run` on a nonexistent file path never raises and
returns empty checklist/scores/gaps with composite `0.0` PROVIDED the
framework's checklist source yields no items (the checklist YAML is
missing or empty) — with an empty checklist the unprotected score and
gaps stages are skipped, so nothing can escape; when the checklist
source does have items they are selected regardless of the file's
nonexistence (see the counterexample). -/
theorem run_missing_file_amended (env : PipelineEnv) (cenv : ChecklistEnv)
    (file_path org_id : String) (policy_type : Option String) (top_k : Int)
    (prefer : Option String)
    (hmiss : cenv.fsText file_path = none)
    (hexists : env.pathExists file_path = false)
    (hitems : ∀ ck, cenv.loadChecklist (framework_for_policy_type
        (classifyPolicyType policy_type file_path)) = .ok ck →
        ck.items = []) :
    ∃ r, run (withDocsChecklist env cenv) file_path org_id policy_type top_k
          prefer = .ok r
      ∧ r.checklist = [] ∧ r.scores = [] ∧ r.gaps = [] ∧ r.composite = 0 := by
  set env' := withDocsChecklist env cenv with henv'
  set ptype := classifyPolicyType policy_type file_path with hpt
  set cf := discoverCorpus env' with hcf
  have hctx : checklistStage env' file_path ptype top_k cf
      = ⟨framework_for_policy_type ptype, clamp_top_k top_k, [], []⟩ := by
    rw [checklistStage]
    have hops : env'.ops.generate_checklist
        = generate_checklist_from_docs cenv := rfl
    have hsort : sortByKeyDesc (fun p : ChecklistItem × Nat => p.2)
        ([] : List (ChecklistItem × Nat)) = [] := rfl
    rcases hload : cenv.loadChecklist (framework_for_policy_type ptype)
      with e | ck
    · simp [hops, generate_checklist_from_docs, hload]
    · have hi := hitems ck hload
      simp [hops, generate_checklist_from_docs, hload, hi, hsort]
  refine ⟨assembleResult env' file_path ptype prefer 0 [] [] [], ?_,
    rfl, rfl, rfl, rfl⟩
  simp only [run, ← hpt, ← hcf, hctx]
  rfl

/-- A checklist store with no checklist at all (loading always raises
`FileNotFoundError`). -/
def noChecklistEnv : ChecklistEnv :=
  { loadChecklist := fun _ => .error ⟨"Checklist not found", false⟩
    fsText := fun _ => none }

/-- C8 witness: the amended theorem at a concrete environment whose
checklist store is empty and whose file path does not exist. -/
theorem run_missing_file_amended_witness :
    ∃ r, run (withDocsChecklist okEnv noChecklistEnv) "nope.pdf" "acme"
          (some "hr") 5 none = .ok r
      ∧ r.checklist = [] ∧ r.scores = [] ∧ r.gaps = [] ∧ r.composite = 0 :=
  run_missing_file_amended okEnv noChecklistEnv "nope.pdf" "acme" (some "hr")
    5 none rfl rfl (fun ck h => nomatch h)

end KatAudit
